import Mathlib

/-!
Shallow embedding of the goanywhere/webapp repository.

Two parts of the code base are embedded here:

* the livereload websocket hub from `src/web/livereload.go` — the hub's
  select loop becomes a step function on an explicit hub state, a tunnel's
  mailbox (`make(chan []byte, 256)`) becomes a bounded FIFO list with a
  closed flag, a Go runtime panic (close of a closed channel, send on a
  closed channel) becomes a `panicked` flag on the state, and the
  coordination goroutine's `sync.RWMutex` — whose deferred unlocks sit
  inside a function literal that never returns, so the first `Lock()` holds
  the mutex forever and every later `Lock()` parks the goroutine — becomes
  a `mutexHeld` flag plus a `blocked` flag after which no event is ever
  consumed again;

* the serialization helpers `Serialize`/`Deserialize` from `utils.go`
  (`src/unnamed/part_000`) — base64 URL encoding (`encoding/base64`,
  `URLEncoding`, with padding) is implemented concretely over byte lists,
  while the gob encoder/decoder (`encoding/gob`) is an external stdlib
  collaborator and is passed in as a function parameter.
-/

namespace LR

set_option maxRecDepth 8000

/-! ## base64 URL encoding (encoding/base64, URLEncoding alphabet, padded) -/

def b64chars : List Char :=
  "ABCDEFGHIJKLMNOPQRSTUVWXYZabcdefghijklmnopqrstuvwxyz0123456789-_".data

def sextetChar (n : Nat) : Char := b64chars.getD n '='

def charIndex (c : Char) : List Char → Nat
  | [] => 64
  | d :: rest => if d = c then 0 else charIndex c rest + 1

def charSextet (c : Char) : Option Nat :=
  if charIndex c b64chars < 64 then some (charIndex c b64chars) else none

/-- Encode a byte list three bytes at a time into four base64 characters,
with `=` padding for a final group of one or two bytes. -/
def b64chunks : List Nat → List Char
  | [] => []
  | [a] => [sextetChar (a / 4), sextetChar (a % 4 * 16), '=', '=']
  | [a, b] => [sextetChar (a / 4), sextetChar (a % 4 * 16 + b / 16), sextetChar (b % 16 * 4), '=']
  | a :: b :: c :: rest =>
      sextetChar (a / 4) :: sextetChar (a % 4 * 16 + b / 16) ::
      sextetChar (b % 16 * 4 + c / 64) :: sextetChar (c % 64) :: b64chunks rest

/-- Decode four base64 characters at a time back into bytes; `=` padding is
accepted only at the very end, anything outside the alphabet fails. -/
def b64dchunks : List Char → Option (List Nat)
  | [] => some []
  | c1 :: c2 :: c3 :: c4 :: rest =>
      match charSextet c1, charSextet c2 with
      | some s1, some s2 =>
          if c3 = '=' then
            if c4 = '=' ∧ rest = [] then some [s1 * 4 + s2 / 16] else none
          else
            match charSextet c3 with
            | some s3 =>
                if c4 = '=' then
                  if rest = [] then some [(s1 * 4 + s2 / 16), (s2 % 16 * 16 + s3 / 4)] else none
                else
                  match charSextet c4 with
                  | some s4 =>
                      match b64dchunks rest with
                      | some bs => some ((s1 * 4 + s2 / 16) :: (s2 % 16 * 16 + s3 / 4) ::
                                         (s3 % 4 * 64 + s4) :: bs)
                      | none => none
                  | none => none
            | none => none
      | _, _ => none
  | _ => none

theorem charSextet_sextetChar : ∀ n, n < 64 → charSextet (sextetChar n) = some n := by decide

theorem sextetChar_ne_pad : ∀ n, n < 64 → sextetChar n ≠ '=' := by decide

theorem b64dchunks_b64chunks :
    ∀ bs : List Nat, (∀ b ∈ bs, b < 256) → b64dchunks (b64chunks bs) = some bs
  | [], _ => rfl
  | [a], h => by
      have ha : a < 256 := h a (by simp)
      have h1 : a / 4 < 64 := by omega
      have h2 : a % 4 * 16 < 64 := by omega
      simp [b64chunks, b64dchunks, charSextet_sextetChar _ h1, charSextet_sextetChar _ h2]
      omega
  | [a, b], h => by
      have ha : a < 256 := h a (by simp)
      have hb : b < 256 := h b (by simp)
      have h1 : a / 4 < 64 := by omega
      have h2 : a % 4 * 16 + b / 16 < 64 := by omega
      have h3 : b % 16 * 4 < 64 := by omega
      simp [b64chunks, b64dchunks, charSextet_sextetChar _ h1, charSextet_sextetChar _ h2,
            charSextet_sextetChar _ h3, sextetChar_ne_pad _ h3]
      omega
  | a :: b :: c :: rest, h => by
      have ha : a < 256 := h a (by simp)
      have hb : b < 256 := h b (by simp)
      have hc : c < 256 := h c (by simp)
      have ih := b64dchunks_b64chunks rest
        (fun x hx => h x (List.mem_cons_of_mem _ (List.mem_cons_of_mem _
          (List.mem_cons_of_mem _ hx))))
      have h1 : a / 4 < 64 := by omega
      have h2 : a % 4 * 16 + b / 16 < 64 := by omega
      have h3 : b % 16 * 4 + c / 64 < 64 := by omega
      have h4 : c % 64 < 64 := by omega
      simp [b64chunks, b64dchunks, charSextet_sextetChar _ h1, charSextet_sextetChar _ h2,
            charSextet_sextetChar _ h3, charSextet_sextetChar _ h4,
            sextetChar_ne_pad _ h3, sextetChar_ne_pad _ h4, ih]
      omega

def b64encode (bs : List Nat) : String := String.mk (b64chunks bs)

def b64decode (s : String) : Option (List Nat) := b64dchunks s.data

theorem b64_roundtrip (bs : List Nat) (h : ∀ b ∈ bs, b < 256) :
    b64decode (b64encode bs) = some bs :=
  b64dchunks_b64chunks bs h

/-! ## Serialize / Deserialize (utils.go, src/unnamed/part_000)

Go's `encoding/gob` encoder and decoder are external collaborators; they are
passed in as functions producing / consuming byte lists. -/

/-- `Serialize` from utils.go: gob-encode the object, then base64-encode the
buffer; the encoded string is produced only when gob encoding succeeded.
Result models the Go pair (value, err). -/
def Serialize {α : Type} (gobEnc : α → Except String (List Nat)) (object : α) :
    String × Option String :=
  match gobEnc object with
  | Except.ok bs => (b64encode bs, none)
  | Except.error e => ("", some e)

/-- `Deserialize` from utils.go.  The result models the pair
(named return `err`, contents of `object` after the call).  In the Go source
the if-initializer `bits, err := base64.URLEncoding.DecodeString(value)`
declares a fresh `err` that shadows the named return; the body's
`err = gob.NewDecoder(...).Decode(object)` writes that shadowed variable,
which goes out of scope at the end of the if statement.  The named return is
therefore never assigned and keeps its zero value nil on every path. -/
def Deserialize {α : Type} (gobDec : List Nat → Except String α) (value : String) :
    Option String × Option α :=
  let namedErr : Option String := none
  match b64decode value with
  | some bits =>
      match gobDec bits with
      | Except.ok a => (namedErr, some a)
      | Except.error _ => (namedErr, none)
  | none => (namedErr, none)

/-- Claim C9: `Deserialize(value, object)` returns a nil error for every input
string and target object — even when the input is not valid base64 or the gob
decode fails, the decoding failure is never reported to the caller (the
`err` assigned inside the if statement is a shadowed variable, not the named
return). -/
theorem deserialize_error_always_nil {α : Type}
    (gobDec : List Nat → Except String α) (value : String) :
    (Deserialize gobDec value).1 = none := by
  unfold Deserialize
  split
  · split <;> rfl
  · rfl

/-- Claim C10: for every gob-encodable value `x` whose gob encoding is the
byte list `bs` (and whose registered-type decode inverts it, the
`encoding/gob` contract), `Serialize` succeeds with the base64 string of `bs`
and `Deserialize` of that string reconstructs exactly `x`. -/
theorem serialize_deserialize_roundtrip {α : Type}
    (gobEnc : α → Except String (List Nat)) (gobDec : List Nat → Except String α)
    (x : α) (bs : List Nat)
    (henc : gobEnc x = Except.ok bs)
    (hbytes : ∀ b ∈ bs, b < 256)
    (hdec : gobDec bs = Except.ok x) :
    Serialize gobEnc x = (b64encode bs, none) ∧
    Deserialize gobDec (Serialize gobEnc x).1 = (none, some x) := by
  have hser : Serialize gobEnc x = (b64encode bs, none) := by
    unfold Serialize
    rw [henc]
  refine ⟨hser, ?_⟩
  rw [hser]
  unfold Deserialize
  rw [b64_roundtrip bs hbytes]
  simp [hdec]

/-- A concrete gob encoder for the round-trip witness: one byte per number. -/
def gobEncNat : Nat → Except String (List Nat) := fun n => Except.ok [n % 256]

/-- The matching concrete gob decoder. -/
def gobDecNat : List Nat → Except String Nat := fun l =>
  match l with
  | [n] => Except.ok n
  | _ => Except.error "gob: type mismatch"

/-- Witness for C10 at the concrete value 3. -/
theorem serialize_deserialize_roundtrip_witness :
    gobEncNat 3 = Except.ok [3] ∧ (∀ b ∈ [3], b < 256) ∧ gobDecNat [3] = Except.ok 3 ∧
    Serialize gobEncNat 3 = (b64encode [3], none) ∧
    Deserialize gobDecNat (Serialize gobEncNat 3).1 = (none, some 3) := by
  have h := serialize_deserialize_roundtrip gobEncNat gobDecNat 3 [3]
    rfl (by decide) rfl
  exact ⟨rfl, by decide, rfl, h.1, h.2⟩

/-! ## Protocol messages (src/web/livereload.go)

The three wire frame shapes and their `encoding/json` serialization.
`json.Marshal` on the Go structs `hello`, `alert`, `reload` produces compact
JSON in field order with HTML escaping enabled; the escaping is implemented
here character by character. -/

def hexDigit (n : Nat) : Char := "0123456789abcdef".data.getD n '0'

/-- One character of Go `encoding/json` string escaping (HTML escaping on). -/
def escChar (c : Char) : List Char :=
  if c = '"' then ['\\', '"']
  else if c = '\\' then ['\\', '\\']
  else if c = '\n' then ['\\', 'n']
  else if c = '\r' then ['\\', 'r']
  else if c = '\t' then ['\\', 't']
  else if c = '<' then "\\u003c".data
  else if c = '>' then "\\u003e".data
  else if c = '&' then "\\u0026".data
  else if c.toNat < 32 then "\\u00".data ++ [hexDigit (c.toNat / 16), hexDigit (c.toNat % 16)]
  else [c]

def jsonEscape (s : String) : String :=
  String.mk (s.data.foldr (fun c acc => escChar c ++ acc) [])

/-- A JSON string literal: quotes around the escaped content. -/
def quoted (s : String) : String := "\"" ++ jsonEscape s ++ "\""

def lbrace : String := "\x7b"

def rbrace : String := "\x7d"

/-- `json.Marshal` of the Go struct `hello{Command, Protocols, ServerName}`. -/
def marshalHello (command : String) (protocols : List String) (serverName : String) : String :=
  lbrace ++ "\"command\":" ++ quoted command ++ ",\"protocols\":[" ++
    String.intercalate "," (protocols.map quoted) ++ "],\"serverName\":" ++
    quoted serverName ++ rbrace

/-- `json.Marshal` of the Go struct `alert{Command, Message}`. -/
def marshalAlert (command : String) (message : String) : String :=
  lbrace ++ "\"command\":" ++ quoted command ++ ",\"message\":" ++ quoted message ++ rbrace

/-- `json.Marshal` of the Go struct `reload{Command, Path, LiveCSS}`. -/
def marshalReload (command : String) (path : String) (liveCSS : Bool) : String :=
  lbrace ++ "\"command\":" ++ quoted command ++ ",\"path\":" ++ quoted path ++
    ",\"liveCSS\":" ++ (if liveCSS then "true" else "false") ++ rbrace

/-- The tagged variant over the three frame shapes of the specification:
`hello {protocols, serverName}`, `alert {message}`,
`reload {path, liveCSS}`, each carrying its command discriminator. -/
inductive Frame where
  | hello (protocols : List String) (serverName : String)
  | alert (message : String)
  | reload (path : String) (liveCSS : Bool)

/-- The wire form of a well-formed frame of each of the three shapes,
as the specification describes them. -/
def frameToJson : Frame → String
  | Frame.hello ps sn =>
      lbrace ++ "\"command\":" ++ quoted "hello" ++ ",\"protocols\":[" ++
        String.intercalate "," (ps.map quoted) ++ "],\"serverName\":" ++
        quoted sn ++ rbrace
  | Frame.alert msg =>
      lbrace ++ "\"command\":" ++ quoted "alert" ++ ",\"message\":" ++ quoted msg ++ rbrace
  | Frame.reload p css =>
      lbrace ++ "\"command\":" ++ quoted "reload" ++ ",\"path\":" ++ quoted p ++
        ",\"liveCSS\":" ++ (if css then "true" else "false") ++ rbrace

/-- The single supported protocol identifier. -/
def protocolURI : String := "http://livereload.com/protocols/official-7"

/-- The server hello reply built by the tunnel's read loop
(`tunnel.connect`): `json.Marshal` of
`hello{Command: "hello", Protocols: [official-7], ServerName: "Rex#Livereload"}`. -/
def helloReply : String := marshalHello "hello" [protocolURI] "Rex#Livereload"

/-! ## Tunnel read loop (tunnel.connect) -/

/-- The byte pattern the read loop looks for:
`bytes.Contains(message, []byte(...))` with the quoted text
`"command":"hello"`. -/
def helloToken : List Char := "\"command\":\"hello\"".data

/-- `pat` occurs at the head of `l`. -/
def matchesAt : List Char → List Char → Bool
  | [], _ => true
  | _ :: _, [] => false
  | p :: ps, c :: cs => if p = c then matchesAt ps cs else false

/-- `bytes.Contains`: `pat` occurs somewhere inside `l`. -/
def bytesContains (pat : List Char) : List Char → Bool
  | [] => matchesAt pat []
  | c :: cs => matchesAt pat (c :: cs) || bytesContains pat cs

def containsHello (msg : String) : Bool := bytesContains helloToken msg.data

/-- One iteration of the read loop body on an inbound frame `msg`
(`tunnel.connect`): the switch enqueues the marshalled server hello into the
tunnel's own mailbox when the message contains the hello byte pattern, and
does nothing otherwise; the loop never exits on frame content. -/
def readerStep (msg : String) (mb : List String) : List String :=
  if containsHello msg then mb ++ [helloReply] else mb

theorem matchesAt_self_append (pat t : List Char) : matchesAt pat (pat ++ t) = true := by
  induction pat with
  | nil => rfl
  | cons p ps ih => simp [matchesAt, ih]

theorem bytesContains_of_matchesAt {pat l : List Char} (h : matchesAt pat l = true) :
    bytesContains pat l = true := by
  cases l with
  | nil => simpa [bytesContains] using h
  | cons c cs => simp [bytesContains, h]

theorem bytesContains_cons {pat cs : List Char} (c : Char)
    (h : bytesContains pat cs = true) : bytesContains pat (c :: cs) = true := by
  simp [bytesContains, h]

/-- An inbound frame in canonical compact JSON whose command discriminator —
the first field — is "hello", followed by an arbitrary remainder of the
payload. -/
def helloFrame (rest : List Char) : String :=
  String.mk ("\x7b\"command\":\"hello\"".data ++ rest)

theorem containsHello_helloFrame (rest : List Char) :
    containsHello (helloFrame rest) = true := by
  have hd : "\x7b\"command\":\"hello\"".data = '\x7b' :: helloToken := rfl
  show bytesContains helloToken (helloFrame rest).data = true
  have hdata : (helloFrame rest).data = '\x7b' :: (helloToken ++ rest) := by
    show ("\x7b\"command\":\"hello\"".data ++ rest) = _
    rw [hd]
    rfl
  rw [hdata]
  exact bytesContains_cons _ (bytesContains_of_matchesAt (matchesAt_self_append _ _))

/-! ## Hub state machine (lrserver)

The hub's single coordination loop (`lrserver.Start`) consumes one event at a
time from the three channels `in`, `out`, `broadcast`; its select body is
embedded as a step function on an explicit state.  A tunnel is identified by
a number standing for the Go `*tunnel` pointer.  A mailbox models the
tunnel's `message chan []byte` of capacity 256: the queued frames plus a
closed flag; a tunnel with no entry yet stands for a freshly constructed
tunnel (`Serve`: empty, open mailbox).  Go runtime panics — close of a
closed channel, send on a closed channel — set the `panicked` flag.

The loop wraps every registry mutation in `self.mutex.Lock()` with
`defer self.mutex.Unlock()`.  Go runs deferred calls when the surrounding
function returns, and the goroutine's function literal loops forever, so the
deferred unlocks never run: the first `Lock()` — the first join — holds the
mutex for good, and every later `Lock()` (a second join, any leave, any
broadcast-overflow default branch) parks the coordination goroutine forever.
`mutexHeld` records the permanently held mutex; `blocked` records the parked
goroutine, after which no further statement of that case runs and no further
event is ever consumed. -/

/-- Capacity of a tunnel's mailbox: `tn.message = make(chan []byte, 256)`. -/
def mailboxCap : Nat := 256

structure Mailbox where
  queue : List String
  closed : Bool
  deriving DecidableEq

structure HubState where
  registry : List Nat
  mailboxes : List (Nat × Mailbox)
  mutexHeld : Bool
  blocked : Bool
  panicked : Bool
  deriving DecidableEq

/-- The mailbox of tunnel `t`: the recorded one, or the fresh empty open
mailbox `Serve` just made if the hub has not touched it yet. -/
def lookupMb : List (Nat × Mailbox) → Nat → Mailbox
  | [], _ => ⟨[], false⟩
  | p :: rest, t => if p.1 = t then p.2 else lookupMb rest t

def getMb (s : HubState) (t : Nat) : Mailbox := lookupMb s.mailboxes t

def setMbList (l : List (Nat × Mailbox)) (t : Nat) (mb : Mailbox) : List (Nat × Mailbox) :=
  match l with
  | [] => [(t, mb)]
  | p :: rest => if p.1 = t then (t, mb) :: rest else p :: setMbList rest t mb

def setMb (s : HubState) (t : Nat) (mb : Mailbox) : HubState :=
  { s with mailboxes := setMbList s.mailboxes t mb }

/-- `close(tunnel.message)`: closing an already-closed Go channel panics. -/
def closeMb (s : HubState) (t : Nat) : HubState :=
  if (getMb s t).closed then { s with panicked := true }
  else setMb s t ⟨(getMb s t).queue, true⟩

inductive Event where
  | join (t : Nat)
  | leave (t : Nat)
  | broadcast (m : String)
  deriving DecidableEq

/-- `case tunnel := <-self.in`: `self.mutex.Lock()` — parking the goroutine
forever when the mutex is already held, since no deferred Unlock ever runs —
then `self.tunnels[tunnel] = true`, a map insert that is a no-op on the
registry set when the tunnel is already a key. -/
def joinStep (s : HubState) (t : Nat) : HubState :=
  if s.mutexHeld then { s with blocked := true }
  else
    let s1 : HubState := { s with mutexHeld := true }
    if t ∈ s1.registry then s1 else { s1 with registry := s1.registry ++ [t] }

/-- `case tunnel := <-self.out`: `self.mutex.Lock()` — parking the goroutine
forever when the mutex is already held — then `delete(self.tunnels, tunnel)`
followed unconditionally by `close(tunnel.message)`. -/
def leaveStep (s : HubState) (t : Nat) : HubState :=
  if s.mutexHeld then { s with blocked := true }
  else closeMb { s with mutexHeld := true, registry := s.registry.erase t } t

/-- One iteration of the broadcast fan-out loop body for tunnel `t`:
`select { case tunnel.message <- m: default: mutex.Lock; delete; close }`.
The non-blocking send succeeds when the mailbox has room; a send case on a
closed channel panics; on a full mailbox the default branch runs the same
Lock / delete / close sequence as a leave — so it, too, parks the goroutine
at `Lock()` whenever the mutex is already held. -/
def sendStep (m : String) (s : HubState) (t : Nat) : HubState :=
  if (getMb s t).closed then { s with panicked := true }
  else if (getMb s t).queue.length < mailboxCap then
    setMb s t ⟨(getMb s t).queue ++ [m], false⟩
  else
    leaveStep s t

/-- `for tunnel := range self.tunnels { ... }` over the snapshot `ts` of the
registry; only the current element is ever deleted during the range, so the
iteration sequence is the snapshot itself — but once the goroutine is parked
at a `Lock()` the loop makes no further progress. -/
def fanout (m : String) (ts : List Nat) (s : HubState) : HubState :=
  match ts with
  | [] => s
  | t :: rest => if s.blocked then s else fanout m rest (sendStep m s t)

/-- `case m := <-self.broadcast`. -/
def broadcastStep (s : HubState) (m : String) : HubState :=
  fanout m s.registry s

/-- The select body of the hub's coordination loop (`lrserver.Start`). -/
def hubStep (s : HubState) : Event → HubState
  | Event.join t => joinStep s t
  | Event.leave t => leaveStep s t
  | Event.broadcast m => broadcastStep s m

/-- The coordination loop consuming a sequence of events one at a time; a
goroutine parked at a `Lock()` never receives another event. -/
def hubRun (s : HubState) : List Event → HubState
  | [] => s
  | e :: es => if s.blocked then s else hubRun (hubStep s e) es

/-- `lrserver.Alert(message)`: a goroutine marshals the alert struct and
sends the bytes to the broadcast channel; the caller returns at once. -/
def Alert (message : String) : Event :=
  Event.broadcast (marshalAlert "alert" message)

/-- `lrserver.Reload(path)`: a goroutine marshals the reload struct — with
`LiveCSS: true` — and sends the bytes to the broadcast channel. -/
def Reload (path : String) : Event :=
  Event.broadcast (marshalReload "reload" path true)

/-- `lrserver.Serve`: the events a single request delivers to the hub.  When
the connection upgrade fails, Serve returns at once — no tunnel is
constructed and nothing is sent to the hub.  On success the fresh tunnel is
sent to `self.in`, the tunnel's loops run (emitting `connectEvents`, e.g. the
writer's `Alert("Connected")` broadcasts), and the deferred send to
`self.out` guarantees a final leave. -/
def serveEvents (upgradeOk : Bool) (t : Nat) (connectEvents : List Event) : List Event :=
  if upgradeOk then Event.join t :: connectEvents ++ [Event.leave t] else []

/-- The initial hub state: the package-level `Livereload` value — empty
registry, no mailboxes touched, mutex free, coordination goroutine running. -/
def hub0 : HubState := ⟨[], [], false, false, false⟩

/-- Two tunnels attempt to register, then `Reload` is called. -/
def c1trace : List Event := [Event.join 1, Event.join 2, Reload "/app.css"]

/-- A tunnel joins, then leaves — the leave event that `Serve`'s deferred
`self.out <- tn` is guaranteed to send once the tunnel's read loop ends. -/
def c2trace : List Event := [Event.join 1, Event.leave 1]

/-- A tunnel joins and 256 broadcasts fill its mailbox to capacity while its
writer drains nothing; then one more broadcast arrives. -/
def c3trace : List Event :=
  Event.join 1 :: List.replicate 256 (Event.broadcast "x") ++ [Event.broadcast "y"]

/-! ## Claim theorems -/

/-- Claim C1 exhibited as a code bug: the coordination loop's deadlock
defeats the fan-out guarantee.  After tunnel 1 joins, the mutex is held
forever (the deferred Unlock inside the never-returning goroutine does not
run), so the second join parks the hub: tunnel 2 never registers — a
registry of two tunnels is unreachable — and the following
`Reload("/app.css")` broadcast is never consumed.  Tunnel 1, registered with
an open empty mailbox (well under capacity), never receives the reload frame
the claim promises it. -/
theorem reload_lost_to_deadlock :
    (hubRun hub0 [Event.join 1]).registry = [1] ∧
    (hubRun hub0 [Event.join 1]).mutexHeld = true ∧
    (hubRun hub0 c1trace).blocked = true ∧
    (hubRun hub0 c1trace).registry = [1] ∧
    getMb (hubRun hub0 c1trace) 1 = ⟨[], false⟩ := by
  exact ⟨by decide, by decide, by decide, by decide, by decide⟩

/-- Claim C2 exhibited as a code bug: after a tunnel joins and leaves, its
mailbox is never closed at all — not exactly once.  The join holds the mutex
forever, so the leave case parks at `self.mutex.Lock()` before its
`delete(self.tunnels, ...)` and `close(tunnel.message)` ever run: the tunnel
stays in the registry with an open mailbox and the hub is dead.  (The parts
of the claim that closes happen only after removal and only in the hub loop
hold trivially: the loop's close statements are the only ones, and none is
ever reached.) -/
theorem leave_never_closes_mailbox :
    (hubRun hub0 c2trace).blocked = true ∧
    1 ∈ (hubRun hub0 c2trace).registry ∧
    (getMb (hubRun hub0 c2trace) 1).closed = false := by
  exact ⟨by decide, by decide, by decide⟩

/-- Claim C3 exhibited as a code bug: the mailbox capacity is indeed 256,
but an overflowing tunnel is not removed, closed, or cut off on the next
broadcast attempt — the broadcast's default branch parks at
`self.mutex.Lock()` (held since the tunnel's join) before its delete/close
run, so after 256 filling broadcasts the 257th leaves the tunnel registered
with an open, still-full mailbox and freezes the hub for good. -/
theorem overflow_deadlocks_not_prunes :
    mailboxCap = 256 ∧
    (hubRun hub0 c3trace).blocked = true ∧
    1 ∈ (hubRun hub0 c3trace).registry ∧
    getMb (hubRun hub0 c3trace) 1 = ⟨List.replicate 256 "x", false⟩ := by
  exact ⟨rfl, by decide, by decide, by decide⟩

/-- Counterexample to claim C4: the read loop matches the exact byte pattern
`"command":"hello"` with `bytes.Contains` instead of parsing the command
discriminator, so the frame `\x7b"command": "hello"\x7d` — valid JSON whose
command discriminator is "hello", merely rendered with a space after the
colon — is missed: no server hello reply is enqueued, not exactly one. -/
theorem hello_with_space_missed :
    containsHello "\x7b\"command\": \"hello\"\x7d" = false ∧
    readerStep "\x7b\"command\": \"hello\"\x7d" [] = [] := by
  exact ⟨by decide, by decide⟩

/-- Claim C4 as amended: for every inbound frame containing the exact byte
pattern `"command":"hello"` — in particular every canonical compact JSON
frame whose first field is the hello command discriminator, as the reference
client sends it — the read loop enqueues exactly one server hello reply into
the tunnel's mailbox, and that reply is the marshalled hello struct naming
the protocol URI `http://livereload.com/protocols/official-7` and the
non-empty server name `Rex#Livereload`.  Frames whose discriminator is hello
but rendered with other whitespace do not contain the pattern and get no
reply. -/
theorem reader_hello_reply_on_token (msg : String) (mb : List String)
    (h : containsHello msg = true) :
    readerStep msg mb = mb ++ [helloReply] ∧
    (∀ rest, containsHello (helloFrame rest) = true) ∧
    helloReply = marshalHello "hello" [protocolURI] "Rex#Livereload" ∧
    protocolURI = "http://livereload.com/protocols/official-7" ∧
    "Rex#Livereload" ≠ "" := by
  refine ⟨?_, containsHello_helloFrame, rfl, rfl, by decide⟩
  unfold readerStep
  rw [h]
  simp

/-- Witness for amended C4: the wire contract's example client hello. -/
theorem reader_hello_reply_on_token_witness :
    containsHello
      "\x7b\"command\":\"hello\",\"protocols\":[\"http://livereload.com/protocols/official-7\"]\x7d"
      = true ∧
    readerStep
      "\x7b\"command\":\"hello\",\"protocols\":[\"http://livereload.com/protocols/official-7\"]\x7d"
      [] = [helloReply] :=
  ⟨by decide, (reader_hello_reply_on_token _ [] (by decide)).1⟩

/-- Counterexample to claim C5: the read loop matches on the byte pattern
`"command":"hello"` anywhere in the frame (`bytes.Contains`), not on the
frame's command discriminator.  The well-formed frame
`\x7b"command":"alert","x":\x7b"command":"hello"\x7d\x7d` has command
discriminator "alert", not "hello", yet the pattern occurs inside its nested
object value, so a server hello reply is enqueued: the read loop does not
take no action on it. -/
theorem reader_nonhello_misfire :
    readerStep "\x7b\"command\":\"alert\",\"x\":\x7b\"command\":\"hello\"\x7d\x7d" []
      = [helloReply] ∧
    ("alert" : String) ≠ "hello" := by
  exact ⟨by decide, by decide⟩

/-- Claim C5 as amended: for every inbound frame that does not contain the
byte pattern `"command":"hello"` anywhere, the read loop takes no action on
it — nothing is enqueued to the mailbox, no error is raised, and the loop
(hence the connection) carries on. -/
theorem reader_ignores_without_token (msg : String) (mb : List String)
    (h : containsHello msg = false) : readerStep msg mb = mb := by
  unfold readerStep
  rw [h]
  simp

/-- Witness for amended C5: a frame with an unrecognized command. -/
theorem reader_ignores_without_token_witness :
    containsHello "\x7b\"command\":\"info\"\x7d" = false ∧
    readerStep "\x7b\"command\":\"info\"\x7d" [] = [] :=
  ⟨by decide, reader_ignores_without_token _ [] (by decide)⟩

/-- Claim C6: every frame the hub emits — the broadcast payloads of
`Reload(p)` and `Alert(m)`, and the read loop's `helloReply` — is the wire
form of a well-formed instance of one of the three shapes; in particular
`Reload(p)` broadcasts the reload frame with path `p` and `liveCSS = true`,
and `Alert(m)` broadcasts the alert frame with message `m`. -/
theorem hub_frames_wellformed (p m : String) :
    Reload p = Event.broadcast (frameToJson (Frame.reload p true)) ∧
    Alert m = Event.broadcast (frameToJson (Frame.alert m)) ∧
    helloReply = frameToJson (Frame.hello [protocolURI] "Rex#Livereload") ∧
    marshalReload "reload" p true = frameToJson (Frame.reload p true) ∧
    marshalAlert "alert" m = frameToJson (Frame.alert m) :=
  ⟨rfl, rfl, rfl, rfl, rfl⟩

/-- Claim C7: when the connection upgrade in `Serve` fails, the request is
aborted with no tunnel created and no effect on the hub: no events at all
reach the hub, and processing that (empty) event sequence leaves any hub
state exactly as it was. -/
theorem serve_upgrade_failure (t : Nat) (ce : List Event) (s : HubState) :
    serveEvents false t ce = [] ∧ hubRun s (serveEvents false t ce) = s :=
  ⟨rfl, rfl⟩

/-- Claim C8: `Alert(message)` is fire-and-forget — it hands the hub exactly
one broadcast event carrying the marshalled alert frame and returns; with an
empty registry (so no join has ever happened and the mutex was never taken),
processing that broadcast is an empty range loop that leaves the hub state
unchanged — in particular it raises no failure: the panicked flag is
untouched. -/
theorem alert_empty_registry (m : String) (s : HubState) (h : s.registry = []) :
    Alert m = Event.broadcast (marshalAlert "alert" m) ∧
    hubStep s (Alert m) = s ∧
    (hubStep s (Alert m)).panicked = s.panicked := by
  have h2 : hubStep s (Alert m) = s := by
    show broadcastStep s (marshalAlert "alert" m) = s
    unfold broadcastStep
    rw [h]
    rfl
  exact ⟨rfl, h2, by rw [h2]⟩

/-- Witness for C8: `Alert("Connected")` against the pristine hub. -/
theorem alert_empty_registry_witness :
    hub0.registry = [] ∧
    hubStep hub0 (Alert "Connected") = hub0 :=
  ⟨rfl, (alert_empty_registry "Connected" hub0 rfl).2.1⟩

end LR
